import Mathlib

/-!
Verification of the Rainfall_Prediction core pipeline
(regridding, seasonal aggregation, index computation, ensemble statistics,
regional statistics), shallowly embedded from the Python sources
src/climate_analyzer.py and src/data_processor.py.

Numbers are modelled as rationals; NaN / missing values are modelled as
Option. The population standard deviation stored by the source has no
rational square root, so the statistics records carry the variance
(field varPop) instead; no property proved here reads it.
-/

namespace Rainfall

/-! ### Ensemble statistics engine (src/climate_analyzer.py, ensemble_analysis) -/

/-- A flattened spatial field of index values; none models NaN. -/
abbrev SpatialData := List (Option ℚ)

/-- Ascending sort, as np.percentile performs internally. -/
def sortQ (l : List ℚ) : List ℚ := l.insertionSort (fun a b => a ≤ b)

/-- np.percentile with the default linear interpolation between order
statistics: h = p/100 * (n-1), result = v[i] + (h - i) * (v[i+1] - v[i]). -/
def percentileQ (v : List ℚ) (p : ℚ) : ℚ :=
  let s := sortQ v
  let n := s.length
  let h := p / 100 * ((n : ℚ) - 1)
  let i := (Int.floor h).toNat
  let frac := h - (i : ℚ)
  match s.get? i, s.get? (i + 1) with
  | some a, some b => a + frac * (b - a)
  | some a, none => a
  | none, _ => 0

/-- Per-index ensemble statistics (mean, population variance, the five
percentiles, count of valid points), as built inside ensemble_analysis. -/
structure EnsStat where
  mean : ℚ
  varPop : ℚ
  p10 : ℚ
  p25 : ℚ
  p50 : ℚ
  p75 : ℚ
  p90 : ℚ
  nValid : ℕ
deriving DecidableEq

/-- Flatten, drop NaN, and compute statistics only when at least one valid
value remains (the `if len(data_values) > 0` branch). -/
def ensembleStats (d : SpatialData) : Option EnsStat :=
  let v := d.filterMap id
  if v.length = 0 then none
  else
    let m := v.sum / (v.length : ℚ)
    some { mean := m
         , varPop := (v.map (fun x => (x - m) ^ 2)).sum / (v.length : ℚ)
         , p10 := percentileQ v 10
         , p25 := percentileQ v 25
         , p50 := percentileQ v 50
         , p75 := percentileQ v 75
         , p90 := percentileQ v 90
         , nValid := v.length }

/-- Metadata entries skipped by ensemble_analysis. -/
def skipFields : List String := ["raw_data", "scenario", "baseline_period", "spatial_info"]

/-- The three-tier confidence classification of relative uncertainty. -/
def confidenceLevel (relUncert : ℚ) : ℕ :=
  if relUncert < 20 then 90 else if relUncert < 40 then 75 else 60

/-- The fixed baseline reference (typical JJAS total, mm). -/
def baselineReference : ℚ := 1000

/-- The derived top-level summary record. -/
structure EnsSummary where
  meanChange : ℚ
  absoluteMean : ℚ
  baselineValue : ℚ
  p10 : ℚ
  p90 : ℚ
  confLevel : ℕ
  uncertaintyRange : ℚ
  affectedGridPoints : ℕ
deriving DecidableEq

/-- The summary derivation from the PRCPTOT statistics (the body of the
`if PRCPTOT in ensemble_results` branch of ensemble_analysis). -/
def mkSummary (st : EnsStat) : EnsSummary :=
  let percentChange := (st.mean - baselineReference) / baselineReference * 100
  let uncRange := st.p90 - st.p10
  let relUncert := uncRange / st.mean * 100
  { meanChange := percentChange
  , absoluteMean := st.mean
  , baselineValue := baselineReference
  , p10 := percentChange - ((baselineReference - st.p10) / baselineReference * 100)
  , p90 := percentChange + ((st.p90 - baselineReference) / baselineReference * 100)
  , confLevel := confidenceLevel relUncert
  , uncertaintyRange := uncRange
  , affectedGridPoints := st.nValid }

/-- The value returned by ensemble_analysis: per-index statistics plus the
optional top-level summary. -/
structure EnsembleResults where
  perIndex : List (String × EnsStat)
  summary : Option EnsSummary
deriving DecidableEq

/-- Key lookup in the per-index results (dict access). -/
def lookupStat (n : String) (l : List (String × EnsStat)) : Option EnsStat :=
  (l.find? (fun p => p.1 = n)).map (fun p => p.2)

/-- The per-index loop of ensemble_analysis: metadata fields are skipped and
indices whose valid values are empty are dropped. -/
def perIndexStats (indices : List (String × SpatialData)) : List (String × EnsStat) :=
  indices.filterMap (fun p =>
    if p.1 ∈ skipFields then none
    else (ensembleStats p.2).map (fun st => (p.1, st)))

/-- ensemble_analysis. The only failure path of the source body is the
Python ZeroDivisionError raised by `uncertainty_range / current_mean` when
the PRCPTOT mean is zero, re-raised wrapped; a missing or empty PRCPTOT
never raises: the summary entry is simply not added. -/
def ensembleAnalysis (indices : List (String × SpatialData)) :
    Except String EnsembleResults :=
  match lookupStat "PRCPTOT" (perIndexStats indices) with
  | none => Except.ok { perIndex := perIndexStats indices, summary := none }
  | some st =>
      if st.mean = 0 then
        Except.error "Error in ensemble analysis: float division by zero"
      else
        Except.ok { perIndex := perIndexStats indices, summary := some (mkSummary st) }

/-- The PRCPTOT statistics of the two-point field used by several witnesses. -/
def twoPointStat : EnsStat :=
  { mean := 1100, varPop := 10000, p10 := 1020, p25 := 1050,
    p50 := 1100, p75 := 1150, p90 := 1180, nValid := 2 }

/-- The statistics of a one-point field with value 5. -/
def onePointStat : EnsStat :=
  { mean := 5, varPop := 0, p10 := 5, p25 := 5, p50 := 5, p75 := 5,
    p90 := 5, nValid := 1 }

/-! ### Index engine (src/climate_analyzer.py, _calculate_* helpers)

A rainfall series is a list of grid cells, each carrying its time series;
none models NaN. The source reduces over the time dimension only, so the
spatial layout is kept one-dimensional (flattened) here. -/

abbrev Series := List (List (Option ℚ))

/-- All non-missing values of the series (the samples DataArray.max sees). -/
def seriesVals (s : Series) : List ℚ := (s.map (fun c => c.filterMap id)).flatten

/-- DataArray.max over the whole array, skipping NaN; none when no valid
value exists (in the source math that max is NaN and every comparison with
it is False). -/
def seriesMax (s : Series) : Option ℚ :=
  match seriesVals s with
  | [] => none
  | x :: xs => some (xs.foldl max x)

/-- Elementwise multiplication (`rainfall_data * c`). -/
def scaleSeries (c : ℚ) (s : Series) : Series :=
  s.map (fun cell => cell.map (fun v => v.map (fun q => q * c)))

/-- The magnitude heuristic shared by Rx1day, Rx5day, heavy-rain days, CDD,
CWD and SDII: `if rainfall_data.max() < 1: rainfall_data *= 86400`. -/
def magConvert (s : Series) : Series :=
  match seriesMax s with
  | some m => if m < 1 then scaleSeries 86400 s else s
  | none => s

/-- Units metadata as classified by the source substring checks:
kgM2S stands for a units string containing "kg m-2 s-1" or "kg/m2/s",
mmPerSec for one containing "mm/s", other for any other units string. -/
inductive UnitsAttr
  | kgM2S
  | mmPerSec
  | other
deriving DecidableEq

/-- Is the declared unit one of the flux units converted by the source? -/
def isFluxUnits : Option UnitsAttr → Bool
  | some UnitsAttr.kgM2S => true
  | some UnitsAttr.mmPerSec => true
  | _ => false

/-- The unit handling of _calculate_prcptot: with units metadata, convert
exactly the flux units; without metadata, convert when the maximum observed
value is below 0.1. -/
def prcptotConvert (units : Option UnitsAttr) (s : Series) : Series :=
  match units with
  | some UnitsAttr.kgM2S => scaleSeries 86400 s
  | some UnitsAttr.mmPerSec => scaleSeries 86400 s
  | some UnitsAttr.other => s
  | none =>
      match seriesMax s with
      | some m => if m < 1/10 then scaleSeries 86400 s else s
      | none => s

/-- Sum over the time dimension with skipna=True: missing values contribute
nothing. -/
def sumSkipna (s : Series) : List ℚ := s.map (fun cell => (cell.filterMap id).sum)

/-- _calculate_prcptot: unit conversion, then seasonal total per cell. -/
def prcptot (units : Option UnitsAttr) (s : Series) : List ℚ :=
  sumSkipna (prcptotConvert units s)

/-- The non-missing values on wet days (value at or above 1 mm/day) of one
cell; NaN compares False against the threshold and is therefore dropped. -/
def wetVals (cell : List (Option ℚ)) : List ℚ :=
  (cell.filterMap id).filter (fun q => decide (1 ≤ q))

/-- The SDII of one cell: wet-day total divided by wet-day count, with the
division-by-zero guard `wet_day_count.where(wet_day_count > 0)` and the
final `.fillna(0)` collapsing the zero-wet-days case to 0. -/
def sdiiCell (cell : List (Option ℚ)) : ℚ :=
  let w := wetVals cell
  if w.length = 0 then 0 else w.sum / (w.length : ℚ)

/-- _calculate_sdii: magnitude conversion, then the per-cell SDII. -/
def sdii (s : Series) : List ℚ := (magConvert s).map sdiiCell

/-- The CDD count of one cell: time steps strictly below 1 mm/day
(the source counts dry steps, not the longest run). -/
def cddCell (cell : List (Option ℚ)) : ℕ :=
  ((cell.filterMap id).filter (fun q => decide (q < 1))).length

/-- The CWD count of one cell: time steps at or above 1 mm/day. -/
def cwdCell (cell : List (Option ℚ)) : ℕ :=
  ((cell.filterMap id).filter (fun q => decide (1 ≤ q))).length

/-- _calculate_consecutive_dry_days. -/
def cdd (s : Series) : List ℕ := (magConvert s).map cddCell

/-- _calculate_consecutive_wet_days. -/
def cwd (s : Series) : List ℕ := (magConvert s).map cwdCell

/-! ### Seasonal aggregator (src/data_processor.py, calculate_seasonal_totals)

Timestamps are modelled by their calendar year and month together with a
flag recording whether they are datetime objects: the source converts
non-datetime time values with pd.to_datetime and writes the result back
into its input dataset. -/

/-- Lowercasing a string, character by character (str.lower() on the ASCII
alias names used here). -/
def lowerStr (s : String) : String := String.mk (s.data.map Char.toLower)

/-- A timestamp: raw is a non-datetime representation (e.g. a string or
cftime object), dt the pandas/numpy datetime representation of the same
instant. -/
inductive TimeVal
  | raw (year month : ℕ)
  | dt (year month : ℕ)
deriving DecidableEq

/-- pd.to_datetime on one value. -/
def TimeVal.toDt : TimeVal → TimeVal
  | .raw y m => .dt y m
  | .dt y m => .dt y m

/-- The isinstance(..., (pd.Timestamp, np.datetime64)) test. -/
def TimeVal.isDt : TimeVal → Bool
  | .raw _ _ => false
  | .dt _ _ => true

/-- Calendar year of a timestamp. -/
def TimeVal.year : TimeVal → ℕ
  | .raw y _ => y
  | .dt y _ => y

/-- Calendar month of a timestamp. -/
def TimeVal.month : TimeVal → ℕ
  | .raw _ m => m
  | .dt _ m => m

/-- A single-variable daily gridded dataset: variable name, optional units
metadata, number of (flattened) grid cells, and one spatial slice per time
step. -/
structure DailySeries where
  varName : String
  units : Option UnitsAttr
  ncells : ℕ
  steps : List (TimeVal × List (Option ℚ))
deriving DecidableEq

/-- The in-place time-axis normalization at the top of
calculate_seasonal_totals: when the first time value is not a datetime the
whole axis is converted and assigned back into the dataset
(`dataset['time'] = pd.to_datetime(dataset.time.values)`). -/
def normalizeTimes (s : DailySeries) : DailySeries :=
  match s.steps.head? with
  | none => s
  | some e =>
      if e.1.isDt then s
      else { s with steps := s.steps.map (fun p => (p.1.toDt, p.2)) }

/-- The JJAS months of the seasonal filter. -/
def seasonMonths : List ℕ := [6, 7, 8, 9]

/-- The precipitation variable aliases checked by calculate_seasonal_totals
(this list has no "pcp", unlike the index engine's). -/
def precipVars : List String := ["pr", "precipitation", "precip", "rain", "rainfall"]

/-- The seasonal filter: keep the time steps whose month is in JJAS. -/
def seasonalSelect (steps : List (TimeVal × List (Option ℚ))) :
    List (TimeVal × List (Option ℚ)) :=
  steps.filter (fun p => decide (p.1.month ∈ seasonMonths))

/-- Value of one spatial slice at cell j, with missing values contributing
zero to the seasonal sum (skipna=True). -/
def cellVal (row : List (Option ℚ)) (j : ℕ) : ℚ := ((row[j]?).bind id).getD 0

/-- The sorted distinct years of the selected steps (groupby sorts keys). -/
def yearsSorted (sel : List (TimeVal × List (Option ℚ))) : List ℕ :=
  ((sel.map (fun p => p.1.year)).dedup).insertionSort (fun a b => a ≤ b)

/-- groupby('time.year').sum('time', skipna=True): one entry per distinct
year, each cell summed over that year's selected steps. -/
def groupYearSum (ncells : ℕ) (sel : List (TimeVal × List (Option ℚ))) :
    List (ℕ × List ℚ) :=
  (yearsSorted sel).map (fun y =>
    (y, (List.range ncells).map (fun j =>
      ((sel.filter (fun p => decide (p.1.year = y))).map (fun p => cellVal p.2 j)).sum)))

/-- calculate_seasonal_totals on one dataset. The first component of the
result is the final state of the input dataset object (the time-axis
normalization mutates it in place); the second is the seasonal totals. -/
def calculateSeasonalTotals (s : DailySeries) :
    DailySeries × List (ℕ × List ℚ) :=
  let s2 := normalizeTimes s
  let sel := seasonalSelect s2.steps
  let sel2 :=
    if lowerStr s2.varName ∈ precipVars ∧ isFluxUnits s2.units = true then
      sel.map (fun p => (p.1, p.2.map (fun v => v.map (fun q => q * 86400))))
    else sel
  (s2, groupYearSum s2.ncells sel2)

/-- The factor the seasonal stage applies to each daily value before the
yearly sum: 86400 for a precipitation-alias variable declared in flux
units (converted to mm/day before summation), 1 otherwise. -/
def seasonalFactor (s : DailySeries) : ℚ :=
  if lowerStr s.varName ∈ precipVars ∧ isFluxUnits s.units = true then 86400 else 1

/-! ### Regridder (src/data_processor.py, regrid_data and _interpolate_to_grid) -/

/-- An input dataset for regridding: named coordinate arrays and a
lat-major 2-D value grid. -/
structure SourceField where
  coords : List (String × List ℚ)
  values : List (List ℚ)
deriving DecidableEq

/-- _get_coord_name: the first coordinate whose lowercased name is among
the lowercased aliases. -/
def getCoordName (coords : List (String × List ℚ)) (possible : List String) :
    Option String :=
  ((coords.map Prod.fst).find? (fun c => decide (lowerStr c ∈ possible.map lowerStr)))

/-- Latitude aliases used by _interpolate_to_grid. -/
def latAliases : List String := ["lat", "latitude", "y"]

/-- Longitude aliases used by _interpolate_to_grid. -/
def lonAliases : List String := ["lon", "longitude", "x"]

/-- Values of a named coordinate. -/
def coordVals (coords : List (String × List ℚ)) (n : String) : List ℚ :=
  ((coords.find? (fun p => p.1 = n)).map Prod.snd).getD []

/-- np.arange start stop step for a positive step: start + k * step while
strictly below stop. -/
def arangeQ (start stop step : ℚ) : List ℚ :=
  (List.range (Int.toNat (Int.ceil ((stop - start) / step)))).map
    (fun k => start + (k : ℚ) * step)

/-- Linear interpolation of two possibly-missing samples. -/
def lerpO (y0 y1 : Option ℚ) (t : ℚ) : Option ℚ :=
  match y0, y1 with
  | some a, some b => some (a + t * (b - a))
  | _, _ => none

/-- 1-D linear interpolation over an ascending coordinate axis; outside the
source extent the result is missing (NaN), as with xarray interp. -/
def interp1 : List ℚ → List (Option ℚ) → ℚ → Option ℚ
  | [x0], [y0], x => if x = x0 then y0 else none
  | x0 :: x1 :: xs, y0 :: y1 :: ys, x =>
      if x < x0 then none
      else if x ≤ x1 then lerpO y0 y1 ((x - x0) / (x1 - x0))
      else interp1 (x1 :: xs) (y1 :: ys) x
  | _, _, _ => none

/-- The source-latitude column of the value grid at source-longitude index
j (missing when a row is ragged). -/
def colAt (values : List (List ℚ)) (j : ℕ) : List (Option ℚ) :=
  values.map (fun row => row.get? j)

/-- Bilinear interpolation: linear along latitude for every source
longitude, then linear along longitude. -/
def bilinear (lats lons : List ℚ) (values : List (List ℚ)) (la lo : ℚ) :
    Option ℚ :=
  interp1 lons ((List.range lons.length).map (fun j => interp1 lats (colAt values j) la)) lo

/-- The regridded form of one dataset: canonical coordinate names, target
coordinate arrays, interpolated values. -/
structure Grid2D where
  latName : String
  lonName : String
  lat : List ℚ
  lon : List ℚ
  values : List (List (Option ℚ))
deriving DecidableEq

/-- _interpolate_to_grid: resolve coordinate names (failing like the source
when neither alias matches), interpolate onto the full target grid and
rename the coordinates to canonical lat/lon. -/
def interpolateToGrid (f : SourceField) (targetLat targetLon : List ℚ) :
    Except String Grid2D :=
  match getCoordName f.coords latAliases, getCoordName f.coords lonAliases with
  | some latC, some lonC =>
      Except.ok
        { latName := "lat", lonName := "lon", lat := targetLat, lon := targetLon
        , values := targetLat.map (fun la => targetLon.map (fun lo =>
            bilinear (coordVals f.coords latC) (coordVals f.coords lonC) f.values la lo)) }
  | _, _ => Except.error "Error interpolating data: Could not identify lat/lon coordinates"

/-- The output of regrid_data. -/
structure RegriddedPair where
  imd : Grid2D
  cmip6 : Grid2D
  targetLat : List ℚ
  targetLon : List ℚ
deriving DecidableEq

/-- India bounding box, latitude minimum. -/
def indiaLatMin : ℚ := 6

/-- India bounding box, latitude maximum. -/
def indiaLatMax : ℚ := 37

/-- India bounding box, longitude minimum. -/
def indiaLonMin : ℚ := 68

/-- India bounding box, longitude maximum. -/
def indiaLonMax : ℚ := 97

/-- regrid_data: build the shared target axes with an inclusive upper bound
(arange up to bound + resolution), interpolate both inputs onto them, wrap
any failure with the stage message. -/
def regridData (imd cmip6 : SourceField) (res : ℚ) : Except String RegriddedPair :=
  let targetLat := arangeQ indiaLatMin (indiaLatMax + res) res
  let targetLon := arangeQ indiaLonMin (indiaLonMax + res) res
  match interpolateToGrid imd targetLat targetLon with
  | Except.error e => Except.error ("Error regridding data: " ++ e)
  | Except.ok g1 =>
      match interpolateToGrid cmip6 targetLat targetLon with
      | Except.error e => Except.error ("Error regridding data: " ++ e)
      | Except.ok g2 =>
          Except.ok { imd := g1, cmip6 := g2, targetLat := targetLat, targetLon := targetLon }

/-! ### Regional aggregator (src/climate_analyzer.py, calculate_regional_statistics) -/

/-- One region's bounding box. -/
structure RegionBounds where
  latMin : ℚ
  latMax : ℚ
  lonMin : ℚ
  lonMax : ℚ
deriving DecidableEq

/-- The six hardcoded regions of calculate_regional_statistics. -/
def regionsList : List (String × RegionBounds) :=
  [("Northern", ⟨28, 37, 68, 88⟩),
   ("Western", ⟨15, 28, 68, 78⟩),
   ("Central", ⟨15, 28, 78, 88⟩),
   ("Eastern", ⟨15, 28, 88, 97⟩),
   ("Southern", ⟨6, 15, 68, 88⟩),
   ("Northeastern", ⟨22, 30, 88, 97⟩)]

/-- A spatial index field with its coordinate arrays (ascending, as
produced by the regridder). -/
structure SpatialField where
  lat : List ℚ
  lon : List ℚ
  values : List (List ℚ)
deriving DecidableEq

/-- The cells selected by `.sel(lat=slice(latMin, latMax),
lon=slice(lonMin, lonMax))`: label slicing on ascending coordinates is
inclusive at both endpoints. -/
def regionSelect (f : SpatialField) (b : RegionBounds) : List ℚ :=
  ((f.lat.zip f.values).filter
      (fun p => decide (b.latMin ≤ p.1 ∧ p.1 ≤ b.latMax))).flatMap
    (fun p => ((f.lon.zip p.2).filter
        (fun q => decide (b.lonMin ≤ q.1 ∧ q.1 ≤ b.lonMax))).map Prod.snd)

/-- Per-region, per-index summary statistics; the source stores the square
root of varPop as std. -/
structure RegionStats where
  mean : ℚ
  varPop : ℚ
  minVal : Option ℚ
  maxVal : Option ℚ
deriving DecidableEq

/-- mean/std/min/max of the selected cells. -/
def regionStats (vals : List ℚ) : RegionStats :=
  let m := vals.sum / (vals.length : ℚ)
  { mean := m
  , varPop := (vals.map (fun x => (x - m) ^ 2)).sum / (vals.length : ℚ)
  , minVal := vals.min?
  , maxVal := vals.max? }

/-- The per-region row: statistics of every spatial index field restricted
to the region. -/
def perRegionRow (indices : List (String × SpatialField)) (b : RegionBounds) :
    List (String × RegionStats) :=
  indices.map (fun p => (p.1, regionStats (regionSelect p.2 b)))

/-- calculate_regional_statistics: every region mapped to its per-index
statistics. -/
def calculateRegionalStatistics (indices : List (String × SpatialField)) :
    List (String × List (String × RegionStats)) :=
  regionsList.map (fun r => (r.1, perRegionRow indices r.2))

/-! ### Concrete inputs used by witnesses -/

/-- A one-cell daily series covering all 12 months of the year 2000 with
constant value 1, already in datetime form. -/
def witnessSeries : DailySeries :=
  { varName := "pr", units := none, ncells := 1,
    steps := [(TimeVal.dt 2000 1, [some 1]), (TimeVal.dt 2000 2, [some 1]),
      (TimeVal.dt 2000 3, [some 1]), (TimeVal.dt 2000 4, [some 1]),
      (TimeVal.dt 2000 5, [some 1]), (TimeVal.dt 2000 6, [some 1]),
      (TimeVal.dt 2000 7, [some 1]), (TimeVal.dt 2000 8, [some 1]),
      (TimeVal.dt 2000 9, [some 1]), (TimeVal.dt 2000 10, [some 1]),
      (TimeVal.dt 2000 11, [some 1]), (TimeVal.dt 2000 12, [some 1])] }

/-- A one-step series whose time value is not a datetime object. -/
def rawSeries : DailySeries :=
  { varName := "pr", units := none, ncells := 1,
    steps := [(TimeVal.raw 2000 6, [some 1])] }

/-- witnessSeries with its variable declared in kg m-2 s-1 flux units. -/
def fluxSeries : DailySeries :=
  { varName := "pr", units := some UnitsAttr.kgM2S, ncells := 1,
    steps := [(TimeVal.dt 2000 1, [some 1]), (TimeVal.dt 2000 2, [some 1]),
      (TimeVal.dt 2000 3, [some 1]), (TimeVal.dt 2000 4, [some 1]),
      (TimeVal.dt 2000 5, [some 1]), (TimeVal.dt 2000 6, [some 1]),
      (TimeVal.dt 2000 7, [some 1]), (TimeVal.dt 2000 8, [some 1]),
      (TimeVal.dt 2000 9, [some 1]), (TimeVal.dt 2000 10, [some 1]),
      (TimeVal.dt 2000 11, [some 1]), (TimeVal.dt 2000 12, [some 1])] }

/-- A 1 x 1 source grid with aliased coordinate names. -/
def witSourceA : SourceField :=
  { coords := [("LATITUDE", [6]), ("Lon", [68])], values := [[1]] }

/-- A second 1 x 1 source grid with different coordinate aliases. -/
def witSourceB : SourceField :=
  { coords := [("y", [6]), ("x", [68])], values := [[5]] }

/-- witSourceA regridded at resolution 31. -/
def witGridA : Grid2D :=
  { latName := "lat", lonName := "lon", lat := [6, 37], lon := [68, 99],
    values := [[some 1, none], [none, none]] }

/-- witSourceB regridded at resolution 31. -/
def witGridB : Grid2D :=
  { latName := "lat", lonName := "lon", lat := [6, 37], lon := [68, 99],
    values := [[some 5, none], [none, none]] }

/-- The RegriddedPair produced from witSourceA and witSourceB at
resolution 31. -/
def witPair : RegriddedPair :=
  { imd := witGridA, cmip6 := witGridB, targetLat := [6, 37], targetLon := [68, 99] }

/-- A spatial field with a single cell on the shared Northern/Western edge
latitude 28. -/
def witField : SpatialField := { lat := [28], lon := [70], values := [[42]] }

/-- The index mapping carrying witField. -/
def witRegional : List (String × SpatialField) := [("PRCPTOT", witField)]

/-! ### Helper lemmas -/

/-- The year of a timestamp is unchanged by pd.to_datetime. -/
theorem TimeVal.toDt_year (t : TimeVal) : t.toDt.year = t.year := by
  cases t <;> rfl

/-- The month of a timestamp is unchanged by pd.to_datetime. -/
theorem TimeVal.toDt_month (t : TimeVal) : t.toDt.month = t.month := by
  cases t <;> rfl

/-- Time-axis normalization leaves the steps alone or converts their
timestamps. -/
theorem normalizeTimes_steps (s : DailySeries) :
    (normalizeTimes s).steps = s.steps ∨
    (normalizeTimes s).steps = s.steps.map (fun p => (p.1.toDt, p.2)) := by
  unfold normalizeTimes
  cases h : s.steps.head? with
  | none => exact Or.inl rfl
  | some e =>
      by_cases hd : e.1.isDt
      · exact Or.inl (by simp [hd])
      · exact Or.inr (by simp [hd])

/-- Time-axis normalization only touches the steps. -/
theorem normalizeTimes_fields (s : DailySeries) :
    (normalizeTimes s).varName = s.varName ∧ (normalizeTimes s).units = s.units ∧
    (normalizeTimes s).ncells = s.ncells := by
  unfold normalizeTimes
  cases h : s.steps.head? with
  | none => exact ⟨rfl, rfl, rfl⟩
  | some e =>
      by_cases hd : e.1.isDt
      · simp [hd]
      · simp [hd]

/-- Filtering and summing after the timestamp conversion is the same as
before it, for any predicate and weight that ignore the datetime flag. -/
theorem map_filter_toDt (l : List (TimeVal × List (Option ℚ)))
    (b : TimeVal × List (Option ℚ) → Bool)
    (hb : ∀ p : TimeVal × List (Option ℚ), b (p.1.toDt, p.2) = b p)
    (g : TimeVal × List (Option ℚ) → ℚ)
    (hg : ∀ p : TimeVal × List (Option ℚ), g (p.1.toDt, p.2) = g p) :
    (((l.map (fun p => (p.1.toDt, p.2))).filter b).map g).sum =
      ((l.filter b).map g).sum := by
  rw [List.filter_map, List.map_map]
  have h1 : l.filter (b ∘ (fun p => (p.1.toDt, p.2))) = l.filter b :=
    List.filter_congr (fun p _ => hb p)
  rw [h1]
  have h2 : (l.filter b).map (g ∘ (fun p => (p.1.toDt, p.2))) = (l.filter b).map g :=
    List.map_congr_left (fun p _ => hg p)
  rw [h2]



/-- filterMap id past a map of Option.map. -/
theorem filterMap_id_map_option (f : ℚ → ℚ) (cell : List (Option ℚ)) :
    (cell.map (Option.map f)).filterMap id = (cell.filterMap id).map f := by
  induction cell with
  | nil => rfl
  | cons v t ih => cases v <;> simp [ih]

/-- Scaling a series scales its non-missing values. -/
theorem seriesVals_scale (c : ℚ) (s : Series) :
    seriesVals (scaleSeries c s) = (seriesVals s).map (fun q => q * c) := by
  unfold seriesVals scaleSeries
  rw [List.map_flatten, List.map_map, List.map_map]
  have hFG : ((fun cl : List (Option ℚ) => cl.filterMap id) ∘
        (fun cell : List (Option ℚ) => cell.map (Option.map (fun q => q * c)))) =
      ((List.map (fun q => q * c)) ∘ (fun cl : List (Option ℚ) => cl.filterMap id)) := by
    funext cell
    exact filterMap_id_map_option _ cell
  rw [hFG]

/-- A running maximum commutes with multiplication by a nonnegative factor. -/
theorem foldl_max_mul (c : ℚ) (hc : 0 ≤ c) (xs : List ℚ) (x : ℚ) :
    (xs.map (fun q => q * c)).foldl max (x * c) = (xs.foldl max x) * c := by
  induction xs generalizing x with
  | nil => rfl
  | cons a t ih =>
      simp only [List.map_cons, List.foldl_cons]
      rw [← max_mul_of_nonneg _ _ hc, ih]

/-- The series maximum commutes with scaling by a nonnegative factor. -/
theorem seriesMax_scale (c : ℚ) (hc : 0 ≤ c) (s : Series) :
    seriesMax (scaleSeries c s) = (seriesMax s).map (fun q => q * c) := by
  unfold seriesMax
  rw [seriesVals_scale]
  cases seriesVals s with
  | nil => rfl
  | cons x xs => simp [foldl_max_mul c hc]

/-- The magnitude heuristic either leaves the series alone or scales it. -/
theorem magConvert_eq (s : Series) :
    magConvert s = s ∨ magConvert s = scaleSeries 86400 s := by
  unfold magConvert
  cases seriesMax s with
  | none => exact Or.inl rfl
  | some m =>
      by_cases hm : m < 1
      · exact Or.inr (by simp [hm])
      · exact Or.inl (by simp [hm])

/-- Scaling preserves the number of cells. -/
theorem scaleSeries_length (c : ℚ) (s : Series) :
    (scaleSeries c s).length = s.length := by
  simp [scaleSeries]

/-- The magnitude heuristic preserves the number of cells. -/
theorem magConvert_length (s : Series) : (magConvert s).length = s.length := by
  rcases magConvert_eq s with h | h <;> rw [h]
  exact scaleSeries_length 86400 s

/-- sdii has one entry per cell. -/
theorem sdii_length (s : Series) : (sdii s).length = s.length := by
  simp [sdii, magConvert_length]

/-- cdd has one entry per cell. -/
theorem cdd_length (s : Series) : (cdd s).length = s.length := by
  simp [cdd, magConvert_length]

/-- cwd has one entry per cell. -/
theorem cwd_length (s : Series) : (cwd s).length = s.length := by
  simp [cwd, magConvert_length]

/-- With no missing value, dropping missing values keeps the length. -/
theorem allSome_filterMap_length (cell : List (Option ℚ))
    (h : ∀ v ∈ cell, v.isSome) : (cell.filterMap id).length = cell.length := by
  induction cell with
  | nil => rfl
  | cons v t ih =>
      cases v with
      | none => exact absurd (h none (by simp)) (by simp)
      | some q => simp [ih (fun v hv => h v (by simp [hv]))]

/-- The dry and wet counts of a list of values partition its length. -/
theorem filter_lt_ge_partition (l : List ℚ) :
    (l.filter (fun q => decide (q < 1))).length +
      (l.filter (fun q => decide (1 ≤ q))).length = l.length := by
  induction l with
  | nil => rfl
  | cons a t ih =>
      by_cases ha : a < 1
      · have h1 : decide (a < 1) = true := decide_eq_true ha
        have h2 : decide ((1 : ℚ) ≤ a) = false := decide_eq_false (not_le.mpr ha)
        simp [List.filter_cons, h1, h2]
        omega
      · have h1 : decide (a < 1) = false := decide_eq_false ha
        have h2 : decide ((1 : ℚ) ≤ a) = true := decide_eq_true (not_lt.mp ha)
        simp [List.filter_cons, h1, h2]
        omega

/-- Per-cell partition of time steps into dry and wet counts. -/
theorem cellPartition (cell : List (Option ℚ)) (h : ∀ v ∈ cell, v.isSome) :
    cddCell cell + cwdCell cell = cell.length := by
  unfold cddCell cwdCell
  rw [filter_lt_ge_partition (cell.filterMap id), allSome_filterMap_length cell h]

/-! ### Theorems: confidence classification (C2) -/

/-- Claim C2: the confidence classification used by every summary derivation
is the exact left-closed three-tier step function of relative uncertainty:
below 20 gives 90, from 20 up to but excluding 40 gives 75, from 40 on gives
60; the inputs 19.9, 20.0, 39.9, 40.0, 40.1 map to 90, 75, 75, 60, 60; and
any summary produced by ensembleAnalysis carries exactly this
classification applied to (p90 - p10) / mean * 100 of PRCPTOT. -/
theorem confidence_step :
    (∀ ru : ℚ, ru < 20 → confidenceLevel ru = 90) ∧
    (∀ ru : ℚ, 20 ≤ ru → ru < 40 → confidenceLevel ru = 75) ∧
    (∀ ru : ℚ, 40 ≤ ru → confidenceLevel ru = 60) ∧
    confidenceLevel (199/10) = 90 ∧ confidenceLevel 20 = 75 ∧
    confidenceLevel (399/10) = 75 ∧ confidenceLevel 40 = 60 ∧
    confidenceLevel (401/10) = 60 ∧
    (∀ inds res s, ensembleAnalysis inds = Except.ok res → res.summary = some s →
      ∃ st, lookupStat "PRCPTOT" res.perIndex = some st ∧
        s.confLevel = confidenceLevel ((st.p90 - st.p10) / st.mean * 100)) := by
  refine ⟨?_, ?_, ?_, by norm_num [confidenceLevel], by norm_num [confidenceLevel],
    by norm_num [confidenceLevel], by norm_num [confidenceLevel],
    by norm_num [confidenceLevel], ?_⟩
  · intro ru h; simp [confidenceLevel, h]
  · intro ru h1 h2; simp [confidenceLevel, h2, not_lt.mpr h1]
  · intro ru h
    have h1 : ¬ ru < 20 := not_lt.mpr (le_trans (by norm_num) h)
    have h2 : ¬ ru < 40 := not_lt.mpr h
    simp [confidenceLevel, h1, h2]
  · intro inds res s hok hs
    unfold ensembleAnalysis at hok
    cases hfind : lookupStat "PRCPTOT" (perIndexStats inds) with
    | none =>
        rw [hfind] at hok
        cases hok
        simp at hs
    | some st =>
        rw [hfind] at hok
        by_cases hm : st.mean = 0
        · simp [hm] at hok
        · simp only [hm, if_false] at hok
          cases hok
          simp only [Option.some.injEq] at hs
          exact ⟨st, hfind, by rw [← hs]; rfl⟩

/-- Witness for confidence_step at concrete inputs. -/
theorem confidence_step_wit :
    confidenceLevel 5 = 90 ∧ confidenceLevel 25 = 75 ∧ confidenceLevel 50 = 60 :=
  ⟨confidence_step.1 5 (by norm_num),
   confidence_step.2.1 25 (by norm_num) (by norm_num),
   confidence_step.2.2.1 50 (by norm_num)⟩

/-! ### Theorems: summary derivation when PRCPTOT is missing (C1) -/

/-- Claim C1 counterexample: on an index set whose PRCPTOT field is entirely
missing, ensemble_analysis does not raise; it returns normally with the
top-level summary absent, while the per-index result for Rx1day is still
present. This refutes the claim that an EnsembleError is raised rather than
a summary-less result being returned. -/
theorem ensemble_missing_prcptot_cex :
    ensembleAnalysis [("PRCPTOT", [none]), ("Rx1day", [some 5])] =
      Except.ok { perIndex := [("Rx1day", onePointStat)], summary := none } := by
  have h1 : perIndexStats [("PRCPTOT", [none]), ("Rx1day", [some 5])] =
      [("Rx1day", onePointStat)] := by
    norm_num [perIndexStats, List.filterMap_cons, skipFields, ensembleStats,
      percentileQ, sortQ, List.insertionSort, List.orderedInsert, onePointStat]
    decide
  unfold ensembleAnalysis
  rw [h1]
  rfl

/-- Claim C1 (amended): for every index set in which PRCPTOT is absent or all
of its spatial values are missing, ensemble_analysis returns successfully
with the top-level summary absent (so no NaN summary fields exist), and the
per-index statistics of every other non-metadata index with at least one
valid value are still returned. No error is raised. -/
theorem ensemble_missing_prcptot (inds : List (String × SpatialData))
    (h : ∀ p ∈ inds, p.1 = "PRCPTOT" → p.2.filterMap id = []) :
    ∃ res, ensembleAnalysis inds = Except.ok res ∧ res.summary = none ∧
      ∀ n d st, (n, d) ∈ inds → n ∉ skipFields → ensembleStats d = some st →
        (n, st) ∈ res.perIndex := by
  have hfind : lookupStat "PRCPTOT" (perIndexStats inds) = none := by
    unfold lookupStat
    cases hf : (perIndexStats inds).find? (fun p => p.1 = "PRCPTOT") with
    | none => rfl
    | some q =>
        exfalso
        have hqmem := List.mem_of_find?_eq_some hf
        have hqname : q.1 = "PRCPTOT" := by
          have := List.find?_some hf
          simpa using this
        rcases List.mem_filterMap.mp hqmem with ⟨p, hp, hpq⟩
        by_cases hskip : p.1 ∈ skipFields
        · simp [hskip] at hpq
        · simp only [hskip, if_false] at hpq
          rcases Option.map_eq_some'.mp hpq with ⟨st, hst, hq⟩
          have hname : p.1 = "PRCPTOT" := by rw [← hq] at hqname; exact hqname
          have hempty := h p hp hname
          rw [ensembleStats, hempty] at hst
          simp at hst
  refine ⟨{ perIndex := perIndexStats inds, summary := none }, ?_, rfl, ?_⟩
  · unfold ensembleAnalysis
    rw [hfind]
  · intro n d st hmem hskip hst
    exact List.mem_filterMap.mpr ⟨(n, d), hmem, by simp [hskip, hst]⟩

/-- Witness for ensemble_missing_prcptot at a concrete input with an empty
PRCPTOT field and one valid CWD field. -/
theorem ensemble_missing_prcptot_wit :
    (∀ p ∈ [("PRCPTOT", ([] : SpatialData)), ("CWD", [some (2:ℚ)])],
        p.1 = "PRCPTOT" → p.2.filterMap id = []) ∧
    (∃ res, ensembleAnalysis [("PRCPTOT", ([] : SpatialData)), ("CWD", [some (2:ℚ)])] =
        Except.ok res ∧ res.summary = none ∧
      ∀ n d st, (n, d) ∈ [("PRCPTOT", ([] : SpatialData)), ("CWD", [some (2:ℚ)])] →
        n ∉ skipFields → ensembleStats d = some st → (n, st) ∈ res.perIndex) :=
  ⟨by decide, ensemble_missing_prcptot _ (by decide)⟩

/-! ### Theorems: summary formulas (C5) -/

/-- Claim C5: whenever the PRCPTOT statistics are present and a summary is
derived, mean_change = (PRCPTOT.mean - 1000) / 1000 * 100 with the baseline
fixed at 1000, uncertainty_range = p90 - p10, and the summary percentile
bounds scale the absolute percentile distance from the baseline:
summary.p10 = mean_change - (1000 - PRCPTOT.p10) / 1000 * 100 and
summary.p90 = mean_change + (PRCPTOT.p90 - 1000) / 1000 * 100. -/
theorem summary_formulas (inds : List (String × SpatialData))
    (res : EnsembleResults) (st : EnsStat) (s : EnsSummary)
    (hok : ensembleAnalysis inds = Except.ok res)
    (hst : lookupStat "PRCPTOT" res.perIndex = some st)
    (hs : res.summary = some s) :
    s.baselineValue = 1000 ∧
    s.meanChange = (st.mean - 1000) / 1000 * 100 ∧
    s.uncertaintyRange = st.p90 - st.p10 ∧
    s.p10 = s.meanChange - ((1000 - st.p10) / 1000 * 100) ∧
    s.p90 = s.meanChange + ((st.p90 - 1000) / 1000 * 100) := by
  unfold ensembleAnalysis at hok
  cases hfind : lookupStat "PRCPTOT" (perIndexStats inds) with
  | none =>
      rw [hfind] at hok
      cases hok
      simp at hs
  | some st0 =>
      rw [hfind] at hok
      by_cases hm : st0.mean = 0
      · simp [hm] at hok
      · simp only [hm, if_false] at hok
        cases hok
        simp only at hst
        rw [hfind] at hst
        cases hst
        simp only [Option.some.injEq] at hs
        subst hs
        exact ⟨rfl, rfl, rfl, rfl, rfl⟩

/-- Witness for summary_formulas on a two-point PRCPTOT field. -/
theorem summary_formulas_wit :
    (mkSummary twoPointStat).baselineValue = 1000 ∧
    (mkSummary twoPointStat).meanChange = (twoPointStat.mean - 1000) / 1000 * 100 ∧
    (mkSummary twoPointStat).uncertaintyRange = twoPointStat.p90 - twoPointStat.p10 ∧
    (mkSummary twoPointStat).p10 =
      (mkSummary twoPointStat).meanChange - ((1000 - twoPointStat.p10) / 1000 * 100) ∧
    (mkSummary twoPointStat).p90 =
      (mkSummary twoPointStat).meanChange + ((twoPointStat.p90 - 1000) / 1000 * 100) :=
  summary_formulas [("PRCPTOT", [some 1000, some 1200])]
    { perIndex := [("PRCPTOT", twoPointStat)], summary := some (mkSummary twoPointStat) }
    twoPointStat (mkSummary twoPointStat)
    (by
      have h1 : perIndexStats [("PRCPTOT", [some 1000, some 1200])] =
          [("PRCPTOT", twoPointStat)] := by
        norm_num [perIndexStats, List.filterMap_cons, skipFields, ensembleStats,
          percentileQ, sortQ, List.insertionSort, List.orderedInsert, twoPointStat]
        decide
      unfold ensembleAnalysis
      rw [h1]
      norm_num [lookupStat, List.find?, twoPointStat])
    (by norm_num [lookupStat, List.find?])
    rfl

/-! ### Theorems: PRCPTOT unit auto-detection (C3) -/

/-- Claim C3 counterexample: the metadata-less field [[0.5]] is a flux field
by the claim's criterion (its maximum 0.5 is below 1), yet _calculate_prcptot
does not apply the x86400 conversion to it: its flux threshold is 0.1, not 1.
The computed PRCPTOT is 0.5, not 0.5 * 86400. -/
theorem prcptot_flux_threshold_cex :
    seriesMax [[some (1/2)]] = some (1/2) ∧ ((1:ℚ)/2 < 1) ∧
    prcptot none [[some (1/2)]] = [(1/2 : ℚ)] ∧
    prcptot none [[some (1/2)]] ≠ [(1/2 : ℚ) * 86400] := by
  refine ⟨rfl, by norm_num, ?_, ?_⟩
  · norm_num [prcptot, prcptotConvert, seriesMax, seriesVals, sumSkipna,
      List.filterMap_cons, List.foldl_cons, List.foldl_nil]
  · norm_num [prcptot, prcptotConvert, seriesMax, seriesVals, sumSkipna,
      List.filterMap_cons, List.foldl_cons, List.foldl_nil]

/-- Claim C3 (amended): for a metadata-less field the PRCPTOT computation
applies the x86400 flux conversion exactly when the maximum observed value
is below 0.1 (not below 1): a field with maximum at least 0.1 — in
particular any mm/day field with maximum at least 1 — is never converted; a
field with maximum below 0.1 is always converted; and
prcptot(field) = prcptot(field x 86400) holds for physically equivalent
pairs whenever the field's maximum is below 0.1 while the scaled maximum is
at least 0.1. -/
theorem prcptot_flux_threshold (s : Series) (m : ℚ) (h : seriesMax s = some m) :
    (1/10 ≤ m → prcptot none s = sumSkipna s) ∧
    (1 ≤ m → prcptot none s = sumSkipna s) ∧
    (m < 1/10 → prcptot none s = sumSkipna (scaleSeries 86400 s)) ∧
    (m < 1/10 → 1/10 ≤ m * 86400 →
      prcptot none s = prcptot none (scaleSeries 86400 s)) := by
  have hkeep : ∀ hm : ¬ m < 1/10, prcptot none s = sumSkipna s := by
    intro hm
    unfold prcptot prcptotConvert
    rw [h]
    show sumSkipna (if m < 1/10 then scaleSeries 86400 s else s) = sumSkipna s
    rw [if_neg hm]
  have hconv : m < 1/10 → prcptot none s = sumSkipna (scaleSeries 86400 s) := by
    intro hm
    unfold prcptot prcptotConvert
    rw [h]
    show sumSkipna (if m < 1/10 then scaleSeries 86400 s else s) =
      sumSkipna (scaleSeries 86400 s)
    rw [if_pos hm]
  refine ⟨fun hge => hkeep (not_lt.mpr hge),
    fun hge => hkeep (not_lt.mpr (le_trans (by norm_num) hge)), hconv, ?_⟩
  intro hlt hge
  rw [hconv hlt]
  unfold prcptot prcptotConvert
  rw [seriesMax_scale 86400 (by norm_num) s, h]
  show sumSkipna (scaleSeries 86400 s) =
    sumSkipna (if m * 86400 < 1/10 then scaleSeries 86400 (scaleSeries 86400 s)
      else scaleSeries 86400 s)
  rw [if_neg (not_lt.mpr hge)]

/-- Witness for prcptot_flux_threshold: a field with maximum 0.5 is kept
as-is, one with maximum 0.01 is converted, and the conversion agrees with
feeding the pre-scaled field. -/
theorem prcptot_flux_threshold_wit :
    prcptot none [[some (1/2)]] = sumSkipna [[some (1/2)]] ∧
    prcptot none [[some (1/100)]] = sumSkipna (scaleSeries 86400 [[some (1/100)]]) ∧
    prcptot none [[some (1/100)]] = prcptot none (scaleSeries 86400 [[some (1/100)]]) :=
  ⟨(prcptot_flux_threshold [[some (1/2)]] (1/2) rfl).1 (by norm_num),
   (prcptot_flux_threshold [[some (1/100)]] (1/100) rfl).2.2.1 (by norm_num),
   (prcptot_flux_threshold [[some (1/100)]] (1/100) rfl).2.2.2 (by norm_num) (by norm_num)⟩

/-! ### Theorems: SDII zero-wet-days guard (C6) -/

/-- A cell with no wet value has SDII 0. -/
theorem sdiiCell_zero (cell : List (Option ℚ)) (h : ∀ q ∈ cell.filterMap id, q < 1) :
    sdiiCell cell = 0 := by
  have hwet : wetVals cell = [] := by
    unfold wetVals
    rw [List.filter_eq_nil_iff]
    intro q hq
    simp only [decide_eq_true_eq]
    exact not_le.mpr (h q hq)
  simp only [sdiiCell]
  rw [hwet]
  rfl

/-- A cell with a wet value has SDII equal to wet total over wet count. -/
theorem sdiiCell_pos (cell : List (Option ℚ)) (hne : wetVals cell ≠ []) :
    sdiiCell cell = (wetVals cell).sum / ((wetVals cell).length : ℚ) := by
  have hlen : ¬ (wetVals cell).length = 0 :=
    fun h0 => hne (List.length_eq_zero.mp h0)
  simp only [sdiiCell]
  rw [if_neg hlen]

/-- Claim C6: per grid cell, when no (converted, mm/day) time-step value
reaches the 1 mm/day wet threshold, SDII is exactly 0 — never missing and
with no division error — and otherwise SDII is the wet-day total divided by
the wet-day count of that cell. -/
theorem sdii_zero_guard (s : Series) (i : ℕ) (cell : List (Option ℚ))
    (hcell : (magConvert s)[i]? = some cell) :
    ((∀ q ∈ cell.filterMap id, q < 1) → (sdii s)[i]? = some 0) ∧
    (∀ q0, q0 ∈ wetVals cell →
      (sdii s)[i]? = some ((wetVals cell).sum / ((wetVals cell).length : ℚ))) := by
  have hget : (sdii s)[i]? = some (sdiiCell cell) := by
    unfold sdii
    rw [List.getElem?_map, hcell]
    rfl
  constructor
  · intro hdry
    rw [hget, sdiiCell_zero cell hdry]
  · intro q0 hq0
    rw [hget, sdiiCell_pos cell (List.ne_nil_of_mem hq0)]

/-- Witness for sdii_zero_guard on the two-cell series [[0, none], [3]]:
the first cell has no wet day and SDII 0, the second has a wet day. -/
theorem sdii_zero_guard_wit :
    (sdii [[some 0, none], [some 3]])[0]? = some 0 ∧
    (sdii [[some 0, none], [some 3]])[1]? =
      some ((wetVals [some 3]).sum / ((wetVals [some 3]).length : ℚ)) := by
  have hmc : magConvert [[some 0, none], [some 3]] = [[some 0, none], [some 3]] := by
    norm_num [magConvert, seriesMax, seriesVals, max_def,
      List.filterMap_cons, List.foldl_cons, List.foldl_nil]
  constructor
  · refine (sdii_zero_guard [[some 0, none], [some 3]] 0 [some 0, none]
      (by rw [hmc]; rfl)).1 ?_
    intro q hq
    simp at hq
    rw [hq]
    norm_num
  · exact (sdii_zero_guard [[some 0, none], [some 3]] 1 [some 3]
      (by rw [hmc]; rfl)).2 3 (by decide)

/-! ### Theorems: CDD and CWD partition the time steps (C10) -/

/-- Claim C10: at any cell whose time steps are all non-missing, the CDD
count (steps strictly below 1 mm/day) plus the CWD count (steps at or above
1 mm/day) equals the total number of time steps at that cell: both counts
are taken over the same converted values with the same 1.0 threshold. -/
theorem cdd_cwd_partition (s : Series) (i : ℕ) (cell : List (Option ℚ))
    (hcell : s[i]? = some cell) (hall : ∀ v ∈ cell, v.isSome) :
    ∃ d w, (cdd s)[i]? = some d ∧ (cwd s)[i]? = some w ∧
      d + w = cell.length := by
  rcases magConvert_eq s with hmc | hmc
  · refine ⟨cddCell cell, cwdCell cell, ?_, ?_, cellPartition cell hall⟩
    · unfold cdd
      rw [List.getElem?_map, hmc, hcell]
      rfl
    · unfold cwd
      rw [List.getElem?_map, hmc, hcell]
      rfl
  · have hconv : (magConvert s)[i]? =
        some (cell.map (Option.map (fun q => q * 86400))) := by
      rw [hmc]
      unfold scaleSeries
      rw [List.getElem?_map, hcell]
      rfl
    have hall2 : ∀ v ∈ cell.map (Option.map (fun q => q * 86400)), v.isSome := by
      intro v hv
      rcases List.mem_map.mp hv with ⟨w, hw, hwv⟩
      have hws := hall w hw
      rw [← hwv]
      cases w with
      | none => simp at hws
      | some q => simp
    refine ⟨cddCell (cell.map (Option.map (fun q => q * 86400))),
      cwdCell (cell.map (Option.map (fun q => q * 86400))), ?_, ?_, ?_⟩
    · unfold cdd
      rw [List.getElem?_map, hconv]
      rfl
    · unfold cwd
      rw [List.getElem?_map, hconv]
      rfl
    · rw [cellPartition _ hall2]
      simp

/-- Witness for cdd_cwd_partition on the single cell [0, 5, 3]: one dry
step plus two wet steps is three steps. -/
theorem cdd_cwd_partition_wit :
    ∃ d w, (cdd [[some 0, some 5, some 3]])[0]? = some d ∧
      (cwd [[some 0, some 5, some 3]])[0]? = some w ∧
      d + w = ([some (0:ℚ), some 5, some 3]).length :=
  cdd_cwd_partition [[some 0, some 5, some 3]] 0 [some 0, some 5, some 3]
    (by rfl) (by decide)

/-! ### Theorems: seasonal aggregation (C4) -/

/-- The per-year per-cell sums computed by the seasonal stage equal sums
over the steps of that year whose month is in season. -/
theorem filtered_sum_transport (s : DailySeries) (y j : ℕ) :
    (((seasonalSelect (normalizeTimes s).steps).filter
        (fun p => decide (p.1.year = y))).map (fun p => cellVal p.2 j)).sum =
    ((s.steps.filter (fun p => decide (p.1.year = y ∧ p.1.month ∈ seasonMonths))).map
        (fun p => cellVal p.2 j)).sum := by
  have hpred : ∀ l : List (TimeVal × List (Option ℚ)),
      ((l.filter (fun p => decide (p.1.month ∈ seasonMonths))).filter
        (fun p => decide (p.1.year = y))) =
      l.filter (fun p => decide (p.1.year = y ∧ p.1.month ∈ seasonMonths)) := by
    intro l
    rw [List.filter_filter]
    apply List.filter_congr
    intro p _
    by_cases h1 : p.1.year = y <;> by_cases h2 : p.1.month ∈ seasonMonths <;>
      simp [h1, h2]
  unfold seasonalSelect
  rcases normalizeTimes_steps s with h | h
  · rw [h, hpred]
  · rw [h, hpred]
    exact map_filter_toDt s.steps _
      (by
        intro p
        simp [TimeVal.toDt_year, TimeVal.toDt_month])
      _ (fun p => rfl)

/-- Mapping a list to key-value pairs and projecting the keys is the
identity. -/
theorem map_fst_pairs {α β : Type} (l : List α) (f : α → β) :
    (l.map (fun y => (y, f y))).map Prod.fst = l := by
  induction l with
  | nil => rfl
  | cons a t ih => simp [ih]

/-- Scaling a spatial slice scales its cell reads; a missing value reads 0
on both sides. -/
theorem cellVal_scale (row : List (Option ℚ)) (j : ℕ) (c : ℚ) :
    cellVal (row.map (fun v => v.map (fun q => q * c))) j = cellVal row j * c := by
  unfold cellVal
  rw [List.getElem?_map]
  cases hrow : row[j]? with
  | none => simp
  | some v => cases v <;> simp

/-- The flux conversion applied by the seasonal stage multiplies every
per-year per-cell sum by the conversion factor. -/
theorem scaled_filter_sum (l : List (TimeVal × List (Option ℚ))) (y j : ℕ) (c : ℚ) :
    (((l.map (fun p => (p.1, p.2.map (fun v => v.map (fun q => q * c))))).filter
        (fun p => decide (p.1.year = y))).map (fun p => cellVal p.2 j)).sum =
    ((l.filter (fun p => decide (p.1.year = y))).map (fun p => cellVal p.2 j)).sum * c := by
  rw [List.filter_map]
  have h1 : l.filter ((fun p : TimeVal × List (Option ℚ) => decide (p.1.year = y)) ∘
        (fun p => (p.1, p.2.map (fun v => v.map (fun q => q * c))))) =
      l.filter (fun p => decide (p.1.year = y)) :=
    List.filter_congr (fun p _ => rfl)
  rw [h1, List.map_map]
  have h2 : (l.filter (fun p => decide (p.1.year = y))).map
        ((fun p : TimeVal × List (Option ℚ) => cellVal p.2 j) ∘
          (fun p => (p.1, p.2.map (fun v => v.map (fun q => q * c))))) =
      (l.filter (fun p => decide (p.1.year = y))).map (fun p => cellVal p.2 j * c) :=
    List.map_congr_left (fun p _ => cellVal_scale p.2 j c)
  rw [h2]
  exact List.sum_map_mul_right _ _ _

/-- The flux conversion does not change the grouping years. -/
theorem yearsSorted_scaled (l : List (TimeVal × List (Option ℚ))) (c : ℚ) :
    yearsSorted (l.map (fun p => (p.1, p.2.map (fun v => v.map (fun q => q * c))))) =
    yearsSorted l := by
  unfold yearsSorted
  rw [List.map_map]
  have h1 : l.map ((fun p : TimeVal × List (Option ℚ) => p.1.year) ∘
        (fun p => (p.1, p.2.map (fun v => v.map (fun q => q * c))))) =
      l.map (fun p => p.1.year) :=
    List.map_congr_left (fun p _ => rfl)
  rw [h1]

/-- Claim C4 counterexample: fluxSeries spans all 12 months of one year at
one cell, with its variable declared in flux units; its June–September
daily values sum to 4, but the seasonal stage converts flux values to
mm/day before summing, so the year's accumulated value is 345600
(= 4 * 86400), not the sum 4 of the stored daily values. -/
theorem seasonal_totals_flux_cex :
    (calculateSeasonalTotals fluxSeries).2 = [(2000, [(345600 : ℚ)])] ∧
    ((fluxSeries.steps.filter
        (fun p => decide (p.1.year = 2000 ∧ p.1.month ∈ seasonMonths))).map
      (fun p => cellVal p.2 0)).sum = 4 ∧
    (345600 : ℚ) ≠ 4 := by
  refine ⟨?_, ?_, by norm_num⟩
  · have hnorm : normalizeTimes fluxSeries = fluxSeries := by decide
    have hsel : seasonalSelect fluxSeries.steps =
        [(TimeVal.dt 2000 6, [some 1]), (TimeVal.dt 2000 7, [some 1]),
         (TimeVal.dt 2000 8, [some 1]), (TimeVal.dt 2000 9, [some 1])] := by decide
    have hscaled : ([(TimeVal.dt 2000 6, [some (1:ℚ)]), (TimeVal.dt 2000 7, [some 1]),
          (TimeVal.dt 2000 8, [some 1]), (TimeVal.dt 2000 9, [some 1])]).map
            (fun p => (p.1, p.2.map (fun v => v.map (fun q => q * 86400)))) =
        [(TimeVal.dt 2000 6, [some (86400:ℚ)]), (TimeVal.dt 2000 7, [some 86400]),
         (TimeVal.dt 2000 8, [some 86400]), (TimeVal.dt 2000 9, [some 86400])] := by
      norm_num
    have hys : yearsSorted [(TimeVal.dt 2000 6, [some (86400:ℚ)]),
        (TimeVal.dt 2000 7, [some 86400]), (TimeVal.dt 2000 8, [some 86400]),
        (TimeVal.dt 2000 9, [some 86400])] = [2000] := by decide
    simp only [calculateSeasonalTotals]
    rw [hnorm, if_pos (by decide : lowerStr fluxSeries.varName ∈ precipVars ∧
      isFluxUnits fluxSeries.units = true)]
    rw [hsel, hscaled]
    unfold groupYearSum
    rw [hys]
    norm_num [List.range_succ, cellVal, fluxSeries, TimeVal.year, List.filter_cons]
  · have hfilter : fluxSeries.steps.filter
        (fun p => decide (p.1.year = 2000 ∧ p.1.month ∈ seasonMonths)) =
        [(TimeVal.dt 2000 6, [some 1]), (TimeVal.dt 2000 7, [some 1]),
         (TimeVal.dt 2000 8, [some 1]), (TimeVal.dt 2000 9, [some 1])] := by decide
    rw [hfilter]
    norm_num [cellVal]

/-- Claim C4 (amended): for every daily input whose steps cover exactly the
years Y (each with every month 1..12 present), seasonal aggregation with
season months [6,7,8,9] produces exactly one entry per year of Y, and each
year's row holds, for every grid cell, the unit-conversion factor
(86400 for a precipitation-alias variable declared in flux units, converted
before summation; 1 otherwise) times the sum of only that year's
June–September daily values at that cell, with missing values contributing
zero (cellVal reads a missing value as 0); the spatial axis is untouched
(one entry per cell index below ncells). -/
theorem seasonal_totals_correct (s : DailySeries) (Y : List ℕ)
    (hnd : Y.Nodup)
    (hmem : ∀ p ∈ s.steps, p.1.year ∈ Y)
    (hall : ∀ y ∈ Y, ∀ m, 1 ≤ m → m ≤ 12 →
      ∃ t v, (t, v) ∈ s.steps ∧ t.year = y ∧ t.month = m) :
    ((calculateSeasonalTotals s).2.map Prod.fst).Perm Y ∧
    (calculateSeasonalTotals s).2.length = Y.length ∧
    (∀ y row, (y, row) ∈ (calculateSeasonalTotals s).2 →
      row = (List.range s.ncells).map (fun j =>
        seasonalFactor s *
          ((s.steps.filter (fun p => decide (p.1.year = y ∧ p.1.month ∈ seasonMonths))).map
            (fun p => cellVal p.2 j)).sum)) := by
  have hfields := normalizeTimes_fields s
  have hyear_mem : ∀ y0, (y0 ∈ (seasonalSelect (normalizeTimes s).steps).map
      (fun p => p.1.year)) ↔ y0 ∈ Y := by
    intro y0
    constructor
    · intro hy0
      rcases List.mem_map.mp hy0 with ⟨p, hp, hpy⟩
      have hp2 : p ∈ (normalizeTimes s).steps := List.mem_of_mem_filter hp
      rcases normalizeTimes_steps s with h | h
      · rw [h] at hp2
        rw [← hpy]
        exact hmem p hp2
      · rw [h] at hp2
        rcases List.mem_map.mp hp2 with ⟨q, hq, hqp⟩
        rw [← hpy, ← hqp]
        show (q.1.toDt, q.2).1.year ∈ Y
        rw [show (q.1.toDt, q.2).1 = q.1.toDt from rfl, TimeVal.toDt_year]
        exact hmem q hq
    · intro hy0
      rcases hall y0 hy0 6 (by norm_num) (by norm_num) with ⟨t, v, htv, hty, htm⟩
      rcases normalizeTimes_steps s with h | h
      · refine List.mem_map.mpr ⟨(t, v), ?_, hty⟩
        refine List.mem_filter.mpr ⟨?_, ?_⟩
        · rw [h]; exact htv
        · simp [htm, seasonMonths]
      · refine List.mem_map.mpr ⟨(t.toDt, v), ?_, ?_⟩
        · refine List.mem_filter.mpr ⟨?_, ?_⟩
          · rw [h]
            exact List.mem_map.mpr ⟨(t, v), htv, rfl⟩
          · show decide ((t.toDt, v).1.month ∈ seasonMonths) = true
            rw [show (t.toDt, v).1 = t.toDt from rfl, TimeVal.toDt_month]
            simp [htm, seasonMonths]
        · show (t.toDt, v).1.year = y0
          rw [show (t.toDt, v).1 = t.toDt from rfl, TimeVal.toDt_year]
          exact hty
  have hperm : (yearsSorted (seasonalSelect (normalizeTimes s).steps)).Perm Y := by
    unfold yearsSorted
    refine (List.perm_insertionSort _ _).trans ?_
    refine (List.perm_ext_iff_of_nodup (List.nodup_dedup _) hnd).mpr ?_
    intro a
    rw [List.mem_dedup]
    exact hyear_mem a
  by_cases hc : lowerStr (normalizeTimes s).varName ∈ precipVars ∧
      isFluxUnits (normalizeTimes s).units = true
  · -- flux-unit precipitation variable: values are converted before summing
    have hcs : lowerStr s.varName ∈ precipVars ∧ isFluxUnits s.units = true :=
      ⟨hfields.1 ▸ hc.1, hfields.2.1 ▸ hc.2⟩
    have hfac : seasonalFactor s = 86400 := by
      unfold seasonalFactor
      rw [if_pos hcs]
    have hout : (calculateSeasonalTotals s).2 =
        groupYearSum (normalizeTimes s).ncells
          ((seasonalSelect (normalizeTimes s).steps).map
            (fun p => (p.1, p.2.map (fun v => v.map (fun q => q * 86400))))) := by
      simp only [calculateSeasonalTotals]
      rw [if_pos hc]
    have hys := yearsSorted_scaled (seasonalSelect (normalizeTimes s).steps) 86400
    refine ⟨?_, ?_, ?_⟩
    · rw [hout]
      unfold groupYearSum
      rw [map_fst_pairs, hys]
      exact hperm
    · rw [hout]
      unfold groupYearSum
      rw [List.length_map, hys]
      exact hperm.length_eq
    · intro y row hyrow
      rw [hout] at hyrow
      unfold groupYearSum at hyrow
      rw [hys] at hyrow
      rcases List.mem_map.mp hyrow with ⟨y0, hy0, heq⟩
      cases heq
      rw [hfields.2.2]
      apply List.map_congr_left
      intro j hj
      rw [scaled_filter_sum, filtered_sum_transport s y j, hfac]
      exact mul_comm _ _
  · -- no conversion: the stored daily values are summed as they are
    have hcs : ¬ (lowerStr s.varName ∈ precipVars ∧ isFluxUnits s.units = true) := by
      intro hx
      exact hc ⟨hfields.1.symm ▸ hx.1, hfields.2.1.symm ▸ hx.2⟩
    have hfac : seasonalFactor s = 1 := by
      unfold seasonalFactor
      rw [if_neg hcs]
    have hout : (calculateSeasonalTotals s).2 =
        groupYearSum (normalizeTimes s).ncells
          (seasonalSelect (normalizeTimes s).steps) := by
      simp only [calculateSeasonalTotals]
      rw [if_neg hc]
    refine ⟨?_, ?_, ?_⟩
    · rw [hout]
      unfold groupYearSum
      rw [map_fst_pairs]
      exact hperm
    · rw [hout]
      unfold groupYearSum
      rw [List.length_map]
      exact hperm.length_eq
    · intro y row hyrow
      rw [hout] at hyrow
      unfold groupYearSum at hyrow
      rcases List.mem_map.mp hyrow with ⟨y0, hy0, heq⟩
      cases heq
      rw [hfields.2.2]
      apply List.map_congr_left
      intro j hj
      rw [filtered_sum_transport s y j, hfac, one_mul]

/-- Witness for seasonal_totals_correct on two 12-month single-cell years:
one field without units metadata and one declared in flux units. -/
theorem seasonal_totals_correct_wit :
    (((calculateSeasonalTotals witnessSeries).2.map Prod.fst).Perm [2000] ∧
     (calculateSeasonalTotals witnessSeries).2.length = 1 ∧
     (∀ y row, (y, row) ∈ (calculateSeasonalTotals witnessSeries).2 →
       row = (List.range witnessSeries.ncells).map (fun j =>
         seasonalFactor witnessSeries *
           ((witnessSeries.steps.filter
               (fun p => decide (p.1.year = y ∧ p.1.month ∈ seasonMonths))).map
             (fun p => cellVal p.2 j)).sum))) ∧
    (((calculateSeasonalTotals fluxSeries).2.map Prod.fst).Perm [2000] ∧
     (calculateSeasonalTotals fluxSeries).2.length = 1 ∧
     (∀ y row, (y, row) ∈ (calculateSeasonalTotals fluxSeries).2 →
       row = (List.range fluxSeries.ncells).map (fun j =>
         seasonalFactor fluxSeries *
           ((fluxSeries.steps.filter
               (fun p => decide (p.1.year = y ∧ p.1.month ∈ seasonMonths))).map
             (fun p => cellVal p.2 j)).sum))) := by
  constructor
  · refine seasonal_totals_correct witnessSeries [2000] (by decide) (by decide) ?_
    intro y hy m h1 h2
    simp only [List.mem_singleton] at hy
    subst hy
    refine ⟨TimeVal.dt 2000 m, [some 1], ?_, rfl, rfl⟩
    interval_cases m <;> decide
  · refine seasonal_totals_correct fluxSeries [2000] (by decide) (by decide) ?_
    intro y hy m h1 h2
    simp only [List.mem_singleton] at hy
    subst hy
    refine ⟨TimeVal.dt 2000 m, [some 1], ?_, rfl, rfl⟩
    interval_cases m <;> decide

/-! ### Theorems: pipeline stage mutation (C9) -/

/-- Claim C9 is violated by the code: calculate_seasonal_totals writes the
converted time axis back into its input dataset
(`dataset['time'] = pd.to_datetime(dataset.time.values)`), so on a dataset
whose time values are not yet datetime objects, the input entity observed
after the stage differs from the one that was passed in: its time axis has
been replaced. -/
theorem seasonal_totals_mutates_input :
    (calculateSeasonalTotals rawSeries).1 ≠ rawSeries := by decide

/-! ### Theorems: regridding coordinate invariant (C7) -/

/-- A successful interpolation carries the target axes under the canonical
names. -/
theorem interpolateToGrid_ok (f : SourceField) (tl tlo : List ℚ) (g : Grid2D)
    (h : interpolateToGrid f tl tlo = Except.ok g) :
    g.latName = "lat" ∧ g.lonName = "lon" ∧ g.lat = tl ∧ g.lon = tlo := by
  unfold interpolateToGrid at h
  cases h1 : getCoordName f.coords latAliases with
  | none =>
      rw [h1] at h
      simp at h
  | some latC =>
      rw [h1] at h
      cases h2 : getCoordName f.coords lonAliases with
      | none =>
          rw [h2] at h
          simp at h
      | some lonC =>
          rw [h2] at h
          cases h
          exact ⟨rfl, rfl, rfl, rfl⟩

/-- Claim C7: for every pair of input fields whose coordinates resolve and
every resolution r > 0, the two members of the resulting RegriddedPair
carry identical latitude and longitude coordinate arrays (hence equal in
length and value), named canonically lat and lon regardless of the inputs'
original coordinate aliases. -/
theorem regrid_common_coords (a b : SourceField) (r : ℚ) (hr : 0 < r)
    (pair : RegriddedPair) (h : regridData a b r = Except.ok pair) :
    pair.imd.lat = pair.cmip6.lat ∧ pair.imd.lon = pair.cmip6.lon ∧
    pair.imd.lat.length = pair.cmip6.lat.length ∧
    pair.imd.lon.length = pair.cmip6.lon.length ∧
    pair.imd.latName = "lat" ∧ pair.imd.lonName = "lon" ∧
    pair.cmip6.latName = "lat" ∧ pair.cmip6.lonName = "lon" := by
  simp only [regridData] at h
  cases h1 : interpolateToGrid a (arangeQ indiaLatMin (indiaLatMax + r) r)
      (arangeQ indiaLonMin (indiaLonMax + r) r) with
  | error e =>
      rw [h1] at h
      simp at h
  | ok g1 =>
      rw [h1] at h
      cases h2 : interpolateToGrid b (arangeQ indiaLatMin (indiaLatMax + r) r)
          (arangeQ indiaLonMin (indiaLonMax + r) r) with
      | error e =>
          rw [h2] at h
          simp at h
      | ok g2 =>
          rw [h2] at h
          cases h
          obtain ⟨n1, n2, l1, l2⟩ := interpolateToGrid_ok _ _ _ _ h1
          obtain ⟨m1, m2, k1, k2⟩ := interpolateToGrid_ok _ _ _ _ h2
          exact ⟨by rw [l1, k1], by rw [l2, k2], by rw [l1, k1], by rw [l2, k2],
            n1, n2, m1, m2⟩

/-- Witness for regrid_common_coords: two 1 x 1 grids with different
coordinate aliases regridded at resolution 31. -/
theorem regrid_common_coords_wit :
    regridData witSourceA witSourceB 31 = Except.ok witPair ∧ ((0:ℚ) < 31) ∧
    (witPair.imd.lat = witPair.cmip6.lat ∧ witPair.imd.lon = witPair.cmip6.lon ∧
     witPair.imd.lat.length = witPair.cmip6.lat.length ∧
     witPair.imd.lon.length = witPair.cmip6.lon.length ∧
     witPair.imd.latName = "lat" ∧ witPair.imd.lonName = "lon" ∧
     witPair.cmip6.latName = "lat" ∧ witPair.cmip6.lonName = "lon") := by
  have hceil1 : (Int.ceil ((indiaLatMax + 31 - indiaLatMin) / (31:ℚ))).toNat = 2 := by
    have h2 : Int.ceil ((indiaLatMax + 31 - indiaLatMin) / (31:ℚ)) = 2 := by
      rw [Int.ceil_eq_iff]
      norm_num [indiaLatMin, indiaLatMax]
    rw [h2]
    rfl
  have hceil2 : (Int.ceil ((indiaLonMax + 31 - indiaLonMin) / (31:ℚ))).toNat = 2 := by
    have h2 : Int.ceil ((indiaLonMax + 31 - indiaLonMin) / (31:ℚ)) = 2 := by
      rw [Int.ceil_eq_iff]
      norm_num [indiaLonMin, indiaLonMax]
    rw [h2]
    rfl
  have harange1 : arangeQ indiaLatMin (indiaLatMax + 31) 31 = [6, 37] := by
    unfold arangeQ
    rw [hceil1]
    norm_num [List.range_succ, indiaLatMin]
  have harange2 : arangeQ indiaLonMin (indiaLonMax + 31) 31 = [68, 99] := by
    unfold arangeQ
    rw [hceil2]
    norm_num [List.range_succ, indiaLonMin]
  have hga1 : getCoordName witSourceA.coords latAliases = some "LATITUDE" := by decide
  have hga2 : getCoordName witSourceA.coords lonAliases = some "Lon" := by decide
  have hgb1 : getCoordName witSourceB.coords latAliases = some "y" := by decide
  have hgb2 : getCoordName witSourceB.coords lonAliases = some "x" := by decide
  have hv1 : interpolateToGrid witSourceA [6, 37] [68, 99] = Except.ok witGridA := by
    unfold interpolateToGrid
    rw [hga1, hga2]
    dsimp only
    congr 1
  have hv2 : interpolateToGrid witSourceB [6, 37] [68, 99] = Except.ok witGridB := by
    unfold interpolateToGrid
    rw [hgb1, hgb2]
    dsimp only
    congr 1
  have hok : regridData witSourceA witSourceB 31 = Except.ok witPair := by
    simp only [regridData]
    rw [harange1, harange2, hv1]
    dsimp only
    rw [hv2]
    rfl
  exact ⟨hok, by norm_num, regrid_common_coords witSourceA witSourceB 31
    (by norm_num) witPair hok⟩

/-! ### Theorems: regional boundary double-counting (C8) -/

/-- Aligned entries of two lists appear as a pair in their zip. -/
theorem zip_getElem_mem {α β : Type} (l1 : List α) (l2 : List β) (i : ℕ)
    (a : α) (b : β) (h1 : l1[i]? = some a) (h2 : l2[i]? = some b) :
    (a, b) ∈ l1.zip l2 := by
  induction l1 generalizing l2 i with
  | nil => simp at h1
  | cons x t ih =>
      cases l2 with
      | nil => simp at h2
      | cons y u =>
          cases i with
          | zero =>
              simp only [List.getElem?_cons_zero, Option.some.injEq] at h1 h2
              rw [← h1, ← h2]
              exact List.mem_cons_self _ _
          | succ k =>
              simp only [List.getElem?_cons_succ] at h1 h2
              exact List.mem_cons_of_mem _ (ih u k h1 h2)

/-- Claim C8: label slicing is inclusive at both endpoints, so a grid cell
whose latitude and longitude fall inside the boxes of two regions — in
particular a cell lying exactly on a shared edge between two adjacent
regions' boxes — is selected by both regions, and its value enters both
regions' RegionalSummary statistics, which are computed over exactly the
selected values. -/
theorem regional_boundary_double
    (indices : List (String × SpatialField)) (n : String) (f : SpatialField)
    (hf : (n, f) ∈ indices)
    (i j : ℕ) (la lo v : ℚ) (row : List ℚ)
    (hla : f.lat[i]? = some la) (hrow : f.values[i]? = some row)
    (hlo : f.lon[j]? = some lo) (hv : row[j]? = some v)
    (r1 r2 : String × RegionBounds) (h1 : r1 ∈ regionsList) (h2 : r2 ∈ regionsList)
    (hb1 : r1.2.latMin ≤ la ∧ la ≤ r1.2.latMax ∧ r1.2.lonMin ≤ lo ∧ lo ≤ r1.2.lonMax)
    (hb2 : r2.2.latMin ≤ la ∧ la ≤ r2.2.latMax ∧ r2.2.lonMin ≤ lo ∧ lo ≤ r2.2.lonMax) :
    v ∈ regionSelect f r1.2 ∧ v ∈ regionSelect f r2.2 ∧
    (r1.1, perRegionRow indices r1.2) ∈ calculateRegionalStatistics indices ∧
    (r2.1, perRegionRow indices r2.2) ∈ calculateRegionalStatistics indices ∧
    (n, regionStats (regionSelect f r1.2)) ∈ perRegionRow indices r1.2 ∧
    (n, regionStats (regionSelect f r2.2)) ∈ perRegionRow indices r2.2 := by
  have hsel : ∀ b : RegionBounds,
      b.latMin ≤ la → la ≤ b.latMax → b.lonMin ≤ lo → lo ≤ b.lonMax →
      v ∈ regionSelect f b := by
    intro b ha1 ha2 ho1 ho2
    unfold regionSelect
    apply List.mem_flatMap.mpr
    refine ⟨(la, row), ?_, ?_⟩
    · refine List.mem_filter.mpr ⟨zip_getElem_mem f.lat f.values i la row hla hrow, ?_⟩
      simp [ha1, ha2]
    · apply List.mem_map.mpr
      refine ⟨(lo, v), List.mem_filter.mpr
        ⟨zip_getElem_mem f.lon row j lo v hlo hv, ?_⟩, rfl⟩
      simp [ho1, ho2]
  refine ⟨hsel r1.2 hb1.1 hb1.2.1 hb1.2.2.1 hb1.2.2.2,
    hsel r2.2 hb2.1 hb2.2.1 hb2.2.2.1 hb2.2.2.2, ?_, ?_, ?_, ?_⟩
  · exact List.mem_map.mpr ⟨r1, h1, rfl⟩
  · exact List.mem_map.mpr ⟨r2, h2, rfl⟩
  · exact List.mem_map.mpr ⟨(n, f), hf, rfl⟩
  · exact List.mem_map.mpr ⟨(n, f), hf, rfl⟩

/-- Witness for regional_boundary_double: the cell at latitude 28 and
longitude 70 lies exactly on the shared edge between the Northern box
(latMin 28) and the Western box (latMax 28) and is counted in both. -/
theorem regional_boundary_double_wit :
    (42 : ℚ) ∈ regionSelect witField ⟨28, 37, 68, 88⟩ ∧
    (42 : ℚ) ∈ regionSelect witField ⟨15, 28, 68, 78⟩ ∧
    ("Northern", perRegionRow witRegional ⟨28, 37, 68, 88⟩) ∈
      calculateRegionalStatistics witRegional ∧
    ("Western", perRegionRow witRegional ⟨15, 28, 68, 78⟩) ∈
      calculateRegionalStatistics witRegional ∧
    ("PRCPTOT", regionStats (regionSelect witField ⟨28, 37, 68, 88⟩)) ∈
      perRegionRow witRegional ⟨28, 37, 68, 88⟩ ∧
    ("PRCPTOT", regionStats (regionSelect witField ⟨15, 28, 68, 78⟩)) ∈
      perRegionRow witRegional ⟨15, 28, 68, 78⟩ :=
  regional_boundary_double witRegional "PRCPTOT" witField (by decide)
    0 0 28 70 42 [42] rfl rfl rfl rfl
    ("Northern", ⟨28, 37, 68, 88⟩) ("Western", ⟨15, 28, 68, 78⟩)
    (by decide) (by decide)
    ⟨by norm_num, by norm_num, by norm_num, by norm_num⟩
    ⟨by norm_num, by norm_num, by norm_num, by norm_num⟩

end Rainfall
